import Mathlib

/-!
Verification development for the ARM64 code simulator bridge
(simulator/code_simulator_arm64.cc): shallow embedding of the
calling-convention marshaller (InitRegistersForInvokeStub /
GetResultFromShorty), the call interceptor
(CustomSimulator::VisitUnconditionalBranchToRegister), the facade
(CodeSimulatorArm64::Invoke) and the eligibility policy (CanSimulate),
together with theorems about the specified properties.

Machine integers are modelled as Nat with explicit reductions modulo
2 ^ 64 (X registers) and 2 ^ 32 (W / S registers) at the points where
the source truncates.  The external vixl instruction simulator, the
native runtime services and the JValue result slot are collaborators
outside this module; where a claim depends on their behaviour they are
modelled from the spec (marked in doc comments).
-/

namespace ArtArm64Sim

/-- Simulated ARM64 machine state: general-purpose registers x0 .. x30,
the stack pointer, the FP/SIMD registers (stored as raw 64-bit
patterns; a D register read returns the whole pattern, an S register
read its low 32 bits), and the program counter. -/
structure SimState where
  x : Nat → Nat
  vregs : Nat → Nat
  sp : Nat
  pc : Nat

/-- Special register numbers defined in asm_support_arm64.s: register
holding the current Thread. -/
def kSelf : Nat := 19

/-- Marking register. -/
def kMR : Nat := 20

/-- Frame pointer register number. -/
def kFp : Nat := 29

/-- Link register number (vixl kLinkRegCode). -/
def kLinkRegCode : Nat := 30

/-- Size of an X register in bytes. -/
def kXRegSizeInBytes : Nat := 8

/-- Write a 64-bit general-purpose register (values reduced mod 2^64). -/
def writeXRegister (st : SimState) (n : Nat) (v : Nat) : SimState :=
  { st with x := fun m => if m = n then v % 2 ^ 64 else st.x m }

/-- Write a W register: the value is truncated to 32 bits and
zero-extended into the X register, per AArch64 semantics. -/
def writeWRegister (st : SimState) (n : Nat) (v : Nat) : SimState :=
  writeXRegister st n (v % 2 ^ 32)

/-- Write a D register: stores a 64-bit pattern into the vector register. -/
def writeDRegister (st : SimState) (n : Nat) (v : Nat) : SimState :=
  { st with vregs := fun m => if m = n then v % 2 ^ 64 else st.vregs m }

/-- Write an S register: stores a 32-bit pattern, zeroing the rest of
the vector register. -/
def writeSRegister (st : SimState) (n : Nat) (v : Nat) : SimState :=
  { st with vregs := fun m => if m = n then v % 2 ^ 32 else st.vregs m }

/-- Read an X register; register code 31 reads as the zero register
(vixl ReadXRegister default behaviour). -/
def readXRegister (st : SimState) (n : Nat) : Nat :=
  if n = 31 then 0 else st.x n

/-- Read a W register: low 32 bits of the X register. -/
def readWRegister (st : SimState) (n : Nat) : Nat :=
  readXRegister st n % 2 ^ 32

/-- Read a D register (64-bit pattern of the vector register). -/
def readDRegister (st : SimState) (n : Nat) : Nat :=
  st.vregs n

/-- Read an S register (low 32 bits of the vector register). -/
def readSRegister (st : SimState) (n : Nat) : Nat :=
  st.vregs n % 2 ^ 32

/-- CustomSimulator::get_lr: value of the link register x30. -/
def get_lr (st : SimState) : Nat :=
  st.x kLinkRegCode

/-- Write the stack pointer (Simulator::WriteSp). -/
def writeSp (st : SimState) (v : Nat) : SimState :=
  { st with sp := v }

/-- Write the program counter (Simulator::WritePc). -/
def writePc (st : SimState) (p : Nat) : SimState :=
  { st with pc := p }

/-- Modelled from the spec: the JValue result slot (runtime collaborator,
jvalue.h is not part of this module).  It holds the bit pattern last
stored into it. -/
structure JValue where
  bits : Nat
deriving DecidableEq

/-- JValue::SetJ: store a 64-bit value. -/
def setJ (v : Nat) (_r : JValue) : JValue := ⟨v⟩

/-- JValue::SetD: store the 64-bit pattern of a double. -/
def setD (v : Nat) (_r : JValue) : JValue := ⟨v⟩

/-- JValue::SetF: store the 32-bit pattern of a float. -/
def setF (v : Nat) (_r : JValue) : JValue := ⟨v⟩

/-- CodeSimulatorArm64::GetResultFromShorty: switch on shorty[0].
Void returns without touching the result slot; D reads d0; F reads s0;
every other tag stores the full x0 (source comment: just store x0,
does not matter if it is 64 or 32 bits).  An empty shorty behaves like
the C string terminator, which falls to the default case. -/
def getResultFromShorty (st : SimState) (shorty : List Char) (result : JValue) : JValue :=
  let c := shorty.headD '\x00'
  if c = 'V' then result
  else if c = 'D' then setD (readDRegister st 0) result
  else if c = 'F' then setF (readSRegister st 0) result
  else setJ (readXRegister st 0) result

/-- GetQuickCodeFromArtMethod (lines 176-189): returns the oat quick
code if it is non-null, and null otherwise.  There is no fatal check on
a missing code address in this function. -/
def getQuickCodeFromArtMethod (oatQuickCode : Option Nat) : Option Nat :=
  match oatQuickCode with
  | some code => some code
  | none => none

/-- Register-argument budget used by the fill loop (kRegisterIndexLimit). -/
def kRegisterIndexLimit : Nat := 8

/-- Read one 32-bit argument-buffer word (the word the cursor points at). -/
def readBufferWord (args : List Nat) : Nat :=
  args.headD 0 % 2 ^ 32

/-- Read two consecutive 32-bit argument-buffer words reinterpreted as
one little-endian 64-bit value (reinterpret_cast of the buffer cursor
to int64_t / double). -/
def readBufferDword (args : List Nat) : Nat :=
  args.headD 0 % 2 ^ 32 + 2 ^ 32 * ((args.drop 1).headD 0 % 2 ^ 32)

/-- The register fill loop of InitRegistersForInvokeStub
(lines 380-405): walk the parameter shorty, writing each argument to
the next FP or integer register and advancing the cursors; after each
parameter the source checks
  gpr_index > kRegisterIndexLimit || fpr_index < kRegisterIndexLimit
and hits UNREACHABLE (modelled as none) when it holds. -/
def fillLoop : List Char → List Nat → Nat → Nat → SimState → Option SimState
  | [], _, _, _, st => some st
  | c :: s, args, gprIndex, fprIndex, st =>
    let (st2, args2, gprIndex2, fprIndex2) :=
      if c = 'D' then
        (writeDRegister st fprIndex (readBufferDword args), args.drop 2, gprIndex, fprIndex + 1)
      else if c = 'J' then
        (writeXRegister st gprIndex (readBufferDword args), args.drop 2, gprIndex + 1, fprIndex)
      else if c = 'F' then
        (writeSRegister st fprIndex (readBufferWord args), args.drop 1, gprIndex, fprIndex + 1)
      else
        (writeWRegister st gprIndex (readBufferWord args), args.drop 1, gprIndex + 1, fprIndex)
    if gprIndex2 > kRegisterIndexLimit ∨ fprIndex2 < kRegisterIndexLimit then none
    else fillLoop s args2 gprIndex2 fprIndex2 st2

/-- Output of InitRegistersForInvokeStub: the mutated register state,
the saved previous stack pointer (saved_sp_), and instrumentation of
where the memory stores of the function land: the frame addresses and
the list of 64-bit stores (byte address, value) made for the null
ArtMethod* sentinel and the saved-register record. -/
structure PackOut where
  st : SimState
  savedSp : Nat
  newSp : Nat
  sentinelAddr : Nat
  argCopyAddr : Nat
  argCopyBytes : Nat
  saveRegBase : Nat
  writes64 : List (Nat × Nat)

/-- CodeSimulatorArm64::InitRegistersForInvokeStub (lines 325-411),
translated line by line.  Arguments: the raw pointer values passed for
method, self, result and shorty; the shorty string (return tag first);
the argument buffer as 32-bit words; args_size_in_bytes; the static
flag; the GC-marking value and kUseReadBarrier configuration; and the
entry simulator state.  Address arithmetic uses Nat subtraction, which
agrees with the source's int64 arithmetic whenever the frame fits below
the current stack pointer (always the case on the simulated stack).
Returns none when the fill loop hits UNREACHABLE. -/
def initRegistersForInvokeStub (method self result shortyPtr : Nat)
    (shorty : List Char) (args : List Nat) (argsSizeInBytes : Nat)
    (isStatic : Bool) (gcMarking : Nat) (useReadBarrier : Bool)
    (st0 : SimState) : Option PackOut :=
  -- Set registers x0, x19, x4 and x5.
  let st1 := writeXRegister st0 0 method
  let st2 := writeXRegister st1 kSelf self
  let st3 := writeXRegister st2 4 result
  let st4 := writeXRegister st3 5 shortyPtr
  let savedSp := st4.sp
  -- x4, x5, x19, x20 .. x28, SP, LR, FP saved (15 in total).
  let regsSaveSize := kXRegSizeInBytes * 15
  let frameSaveSize := regsSaveSize + kXRegSizeInBytes + argsSizeInBytes
  -- Comply with the 16-byte alignment requirement for SP.
  let newSp := (savedSp - frameSaveSize) &&& 0xfffffffffffffff0
  let st5 := writeSp st4 newSp
  -- Store null into ArtMethod* at the bottom of the frame, then the
  -- arguments are memcpy'd just above it (args_size_in_bytes * 4 bytes).
  -- Callee-saved registers: save_registers = (int64_t*)saved_sp_ + 3.
  let base := savedSp + 3 * kXRegSizeInBytes
  let writes : List (Nat × Nat) :=
    (newSp, 0) ::
    (base, readXRegister st5 kFp) ::
    (base + 8, get_lr st5) ::
    (base + 16, readXRegister st5 4) ::
    (base + 24, readXRegister st5 5) ::
    (base + 32, savedSp) ::
    (base + 40, readXRegister st5 kSelf) ::
    (List.range 9).map (fun i => (base + 48 + 8 * i, readXRegister st5 (20 + i)))
  -- Use xFP now, as it is callee-saved.
  let st6 := writeXRegister st5 kFp (savedSp - regsSaveSize)
  -- Skip the return value; for a non-static method load "this" into the
  -- first integer parameter register and advance the args cursor, then
  -- run the fill loop; none propagates the UNREACHABLE of the loop.
  let params := shorty.drop 1
  let filled :=
    if isStatic then fillLoop params args 1 0 st6
    else fillLoop params (args.drop 1) 2 0 (writeWRegister st6 1 (readBufferWord args))
  filled.map (fun st8 =>
    -- REFRESH_MARKING_REGISTER
    let st9 := if useReadBarrier then writeWRegister st8 kMR gcMarking else st8
    { st := st9, savedSp := savedSp, newSp := newSp, sentinelAddr := newSp,
      argCopyAddr := newSp + 8, argCopyBytes := argsSizeInBytes * 4,
      saveRegBase := base, writes64 := writes })

/-- Modelled from the spec: the clean baseline produced by vixl
Simulator::ResetState (external collaborator) — all simulated register
and flag state reset. -/
def resetStateBaseline : SimState :=
  { x := fun _ => 0, vregs := fun _ => 0, sp := 0, pc := 0 }

/-- CodeSimulatorArm64::Invoke (lines 241-266): pack the arguments
(recording saved_sp_), resolve the quick code address (a null pointer
becomes address 0 through the reinterpret_cast), run the simulator from
that address, extract the result per the shorty, reset the simulator
state and restore the stack pointer to saved_sp_.  The simulator run is
the external collaborator, passed as the runFrom function from a start
address and machine state to a final machine state.  Returns none only
when argument packing hits UNREACHABLE. -/
def invoke (runFrom : Nat → SimState → SimState)
    (method self resultPtr shortyPtr : Nat) (shorty : List Char)
    (args : List Nat) (argsSizeInBytes : Nat) (isStatic : Bool)
    (oatQuickCode : Option Nat) (gcMarking : Nat) (useReadBarrier : Bool)
    (st : SimState) (result : JValue) : Option (SimState × JValue) :=
  match initRegistersForInvokeStub method self resultPtr shortyPtr shorty args
      argsSizeInBytes isStatic gcMarking useReadBarrier st with
  | none => none
  | some po =>
    let quickCode := (getQuickCodeFromArtMethod oatQuickCode).getD 0
    let st2 := runFrom quickCode po.st
    let result2 := getResultFromShorty st2 shorty result
    -- Ensure simulation state is not carried over; then reset SP.
    let st3 := writeSp resetStateBaseline po.savedSp
    some (st3, result2)

/-- The two intercepted indirect-branch instruction forms, plus every
other form handled by the final fallthrough to the default simulator. -/
inductive BrForm where
  | BR
  | BLR
  | otherForm
deriving DecidableEq

/-- An indirect-branch instruction: its form, its target register
number, and its own address (GetNextInstruction is addr + 4). -/
structure BrInstr where
  form : BrForm
  rn : Nat
  addr : Nat

/-- Address of the instruction following a branch
(Instruction::GetNextInstruction). -/
def nextInstruction (i : BrInstr) : Nat := i.addr + 4

/-- The interception table: the quick entry point addresses consulted
by the interceptor (QuickEntryPoints fields used by this module). -/
structure QuickEntryPoints where
  pTestSuspend : Nat
  pAllocObjectInitialized : Nat
  pAllocArrayResolved8 : Nat
  pAllocArrayResolved16 : Nat
  pAllocArrayResolved32 : Nat
  pAllocArrayResolved64 : Nat

/-- One invocation of a host-native runtime service performed by the
interceptor, with the argument values read from the simulated
registers. -/
inductive NativeCall where
  | testSuspend
  | allocObjectInitialized (cls : Nat)
  | allocArrayResolved (target cls count : Nat)
deriving DecidableEq

/-- CustomSimulator::VisitUnconditionalBranchToRegister (lines 92-153).
The host-native services are the abstract functions
allocObjectInitializedNative (class pointer to object pointer) and
allocArrayResolvedNative (entry point address, class pointer, length to
array pointer); Simulator::VisitUnconditionalBranchToRegister of the
base class is the abstract defaultVisit.  Modelled from the spec for
the vixl RuntimeCall helpers: a void runtime call reads no registers
and writes none; a non-void call reads its arguments from x0 (and w1
for the int32 length) and writes its return value into x0.  The result
pairs the new machine state with the list of native service invocations
performed. -/
def visitUnconditionalBranchToRegister (qp : QuickEntryPoints)
    (allocObjectInitializedNative : Nat → Nat)
    (allocArrayResolvedNative : Nat → Nat → Nat → Nat)
    (defaultVisit : SimState → BrInstr → SimState)
    (st : SimState) (instr : BrInstr) : SimState × List NativeCall :=
  match instr.form with
  | .BR =>
    let target := readXRegister st instr.rn
    let lr := get_lr st
    if target = qp.pTestSuspend then
      (writePc st lr, [.testSuspend])
    else
      -- For branching to fixed addresses or labels, nothing has changed.
      (defaultVisit st instr, [])
  | .BLR =>
    let target := readXRegister st instr.rn
    let lr := nextInstruction instr
    if target = qp.pAllocObjectInitialized then
      let ret := allocObjectInitializedNative (readXRegister st 0)
      (writePc (writeXRegister st 0 ret) lr, [.allocObjectInitialized (readXRegister st 0)])
    else if target = qp.pAllocArrayResolved8 ∨ target = qp.pAllocArrayResolved16 ∨
        target = qp.pAllocArrayResolved32 ∨ target = qp.pAllocArrayResolved64 then
      let ret := allocArrayResolvedNative target (readXRegister st 0) (readWRegister st 1)
      (writePc (writeXRegister st 0 ret) lr,
       [.allocArrayResolved target (readXRegister st 0) (readWRegister st 1)])
    else
      (defaultVisit st instr, [])
  | .otherForm =>
    (defaultVisit st instr, [])

/-- kEnableSimulateMethodAllowList configuration constant. -/
def kEnableSimulateMethodAllowList : Bool := false

/-- Does the needle occur at the start of the haystack. -/
def leadsList : List Char → List Char → Bool
  | [], _ => true
  | _ :: _, [] => false
  | n :: ns, h :: hs => n == h && leadsList ns hs

/-- std::string::find(needle) != npos: the needle occurs somewhere in
the haystack. -/
def findSubstr (needle : List Char) : List Char → Bool
  | [] => leadsList needle []
  | h :: t => leadsList needle (h :: t) || findSubstr needle t

/-- The simulate_method_allow_list table. -/
def simulate_method_allow_list : List (List Char) :=
  [ "other.TestByte.testDotProdComplex".toList,
    "other.TestByte.testDotProdComplexSignedCastedToUnsigned".toList,
    "other.TestByte.testDotProdComplexUnsigned".toList,
    "other.TestByte.testDotProdComplexUnsignedCastedToSigned".toList ]

/-- The avoid_simulation_method_list table. -/
def avoid_simulation_method_list : List (List Char) :=
  [ "main".toList,
    "<clinit>".toList,
    "java.".toList,
    "sun.".toList,
    "dalvik.".toList,
    "android.".toList,
    "libcore.".toList ]

/-- The debug marker substring. -/
def dollarSimulateMarker : List Char := "$simulate$".toList

/-- CodeSimulatorArm64::CanSimulate (lines 417-442), with the allow-list
mode constant passed as a parameter: the marker rule first, then the
allow-list loop (return true on a hit, false after the loop), else the
deny-list loop (return false on a hit, true after the loop). -/
def canSimulate (allowListMode : Bool) (name : List Char) : Bool :=
  if findSubstr dollarSimulateMarker name then true
  else if allowListMode then
    simulate_method_allow_list.any (fun s => findSubstr s name)
  else
    !(avoid_simulation_method_list.any (fun s => findSubstr s name))

/-- CanSimulate as compiled (allow-list mode off). -/
def canSimulateDefault (name : List Char) : Bool :=
  canSimulate kEnableSimulateMethodAllowList name

/-- A zeroed machine state used by concrete witnesses. -/
def st0 : SimState :=
  { x := fun _ => 0, vregs := fun _ => 0, sp := 0, pc := 0 }

/-- A machine state with the stack pointer at 4096, used by concrete
witnesses. -/
def stA : SimState :=
  { st0 with sp := 4096 }

/-- C1: the claim states that argument packing fails fatally if and only
if a register cursor would exceed the 8-per-class budget, and in
particular that a within-budget call never reaches UNREACHABLE.  The
code's per-parameter check is
  gpr_index > kRegisterIndexLimit || fpr_index < kRegisterIndexLimit,
whose floating-point half fires whenever FEWER than 8 floating-point
registers are in use.  Evaluating the embedded packing at the failing
input — a static method of shorty VI, one int parameter, so 1 integer
and 0 floating-point register-class parameters, well within both
budgets — shows the fatal branch (none) is reached. -/
theorem C1_fatal_check_fires_within_budget :
    initRegistersForInvokeStub 11 22 33 44 ['V', 'I'] [5] 4 true 0 false stA = none := rfl

/-- C2: the claimed pack-then-extract round trip for signatures with at
most 7 integer-class and at most 8 floating-point-class parameters
cannot hold, because packing itself dies on the inverted
floating-point-budget check: at the spec's own scenario — shorty VJ,
static, buffer holding the 8-byte value 42 (1 integer-class and 0
floating-point-class parameters) — the embedded packing reaches the
fatal branch (none) instead of leaving 42 in x1. -/
theorem C2_roundtrip_blocked_by_fatal_check :
    initRegistersForInvokeStub 11 22 33 44 ['V', 'J'] [42, 0] 8 true 0 false stA = none := rfl

/-- C7: the claim states the saved-frame record is written inside the
newly allocated frame, below the previous stack pointer.  The embedded
frame setup, evaluated at a concrete state with SP = 4096 and an empty
signature (so packing completes), shows: saved_sp_ = 4096, the new SP
3968 = 4096 - 128 aligned down to 16 bytes with the null ArtMethod*
sentinel stored there (these parts of the claim hold), but the
saved-register record base is saved_sp_ + 24 = 4120 — ABOVE the
previous stack pointer, contradicting both the claim and the frame
diagram in the source (which places the record at FP = saved_sp_ - 120,
the value the code itself assigns to the FP register). -/
theorem C7_save_registers_written_above_previous_sp :
    ((initRegistersForInvokeStub 11 22 33 44 ['V'] [] 0 true 0 false stA).map
      (fun po => (po.savedSp, po.newSp, po.sentinelAddr, po.saveRegBase))) =
      some (4096, 3968, 3968, 4120) ∧ 4096 < 4120 :=
  ⟨rfl, by norm_num⟩

/-- C9: result extraction reads no register and leaves the result slot
unmodified for a void return tag (the result is the unchanged input
slot, for every machine state); reads the d0 pattern for a double tag;
reads the s0 pattern (low 32 bits of v0) for a float tag; and reads the
full x0 for every other tag. -/
theorem C9_getResultFromShorty_register_reads (st : SimState) (r : JValue) (rest : List Char) :
    (getResultFromShorty st ('V' :: rest) r = r)
    ∧ (getResultFromShorty st ('D' :: rest) r = ⟨st.vregs 0⟩)
    ∧ (getResultFromShorty st ('F' :: rest) r = ⟨st.vregs 0 % 2 ^ 32⟩)
    ∧ (∀ c : Char, c ≠ 'V' → c ≠ 'D' → c ≠ 'F' →
        getResultFromShorty st (c :: rest) r = ⟨st.x 0⟩) := by
  refine ⟨rfl, rfl, rfl, ?_⟩
  intro c h1 h2 h3
  simp [getResultFromShorty, setJ, readXRegister, h1, h2, h3]

/-- A state holding 77 in x0, for the C9 witness. -/
def stC9 : SimState := { st0 with x := fun m => if m = 0 then 77 else 0 }

/-- Witness for C9: extracting an int return from a state with x0 = 77
yields 77. -/
theorem C9_witness : getResultFromShorty stC9 ['I'] ⟨5⟩ = ⟨77⟩ := by
  have h := (C9_getResultFromShorty_register_reads stC9 ⟨5⟩ []).2.2.2 'I'
    (by decide) (by decide) (by decide)
  exact h.trans rfl

/-- C10: for every return tag other than V, D and F — booleans, bytes,
chars, shorts, ints, longs and references alike — result extraction
stores the full 64-bit contents of x0 into the result slot, with no
truncation or extension to the declared narrower width. -/
theorem C10_full_x0_stored_for_integer_tags (st : SimState) (r : JValue) (rest : List Char)
    (c : Char) (h1 : c ≠ 'V') (h2 : c ≠ 'D') (h3 : c ≠ 'F') :
    getResultFromShorty st (c :: rest) r = ⟨st.x 0⟩ := by
  simp [getResultFromShorty, setJ, readXRegister, h1, h2, h3]

/-- A state holding a value wider than 32 bits in x0, for the C10
witness. -/
def stC10 : SimState := { st0 with x := fun m => if m = 0 then 0xdeadbeefcafebabe else 0 }

/-- Witness for C10: a boolean return tag still receives all 64 bits of
x0, not a 1-bit or 32-bit truncation. -/
theorem C10_witness : getResultFromShorty stC10 ['Z'] ⟨0⟩ = ⟨0xdeadbeefcafebabe⟩ := by
  have h := C10_full_x0_stored_for_integer_tags stC10 ⟨0⟩ [] 'Z'
    (by decide) (by decide) (by decide)
  exact h.trans rfl

/-- C8: the three ordered eligibility rules, first match winning: a name
containing the debug marker is always eligible; otherwise with
allow-list mode on, eligibility is exactly a substring hit in the
allow-list; otherwise eligibility is exactly the absence of a substring
hit in the deny-list. -/
theorem C8_canSimulate_three_ordered_rules (mode : Bool) (name : List Char) :
    (findSubstr dollarSimulateMarker name = true → canSimulate mode name = true)
    ∧ (findSubstr dollarSimulateMarker name = false → mode = true →
        canSimulate mode name = simulate_method_allow_list.any (fun s => findSubstr s name))
    ∧ (findSubstr dollarSimulateMarker name = false → mode = false →
        canSimulate mode name = !(avoid_simulation_method_list.any (fun s => findSubstr s name))) := by
  refine ⟨?_, ?_, ?_⟩
  · intro h; simp [canSimulate, h]
  · intro h hm; subst hm; simp [canSimulate, h]
  · intro h hm; subst hm; simp [canSimulate, h]

/-- Witness for C8: with allow-list mode off, a static-initializer name
matching the deny-list entry for clinit is ineligible. -/
theorem C8_witness : canSimulate false ("org.Foo.<clinit>".toList) = false := by
  have h := (C8_canSimulate_three_ordered_rules false ("org.Foo.<clinit>".toList)).2.2
    (by decide) rfl
  rw [h]; decide

/-- C3: for every branch whose target matches the relevant interception
table entry, the interceptor produces — independently of the default
simulator behaviour, which is therefore never consulted and the
simulated body never executed — exactly one native-service invocation,
writes the native return value (for the non-void allocation services)
into x0, and redirects the program counter to the link register for the
BR form and to the instruction after the branch for the BLR form.  The
array-family conjunct assumes the target is distinct from the
allocate-object entry, per the interception table's address-uniqueness
invariant. -/
theorem C3_interception_exact (qp : QuickEntryPoints)
    (allocObjectInitializedNative : Nat → Nat)
    (allocArrayResolvedNative : Nat → Nat → Nat → Nat)
    (defaultVisit : SimState → BrInstr → SimState)
    (st : SimState) (instr : BrInstr) :
    (instr.form = .BR → readXRegister st instr.rn = qp.pTestSuspend →
      visitUnconditionalBranchToRegister qp allocObjectInitializedNative
          allocArrayResolvedNative defaultVisit st instr =
        (writePc st (get_lr st), [.testSuspend]))
    ∧ (instr.form = .BLR → readXRegister st instr.rn = qp.pAllocObjectInitialized →
      visitUnconditionalBranchToRegister qp allocObjectInitializedNative
          allocArrayResolvedNative defaultVisit st instr =
        (writePc (writeXRegister st 0 (allocObjectInitializedNative (readXRegister st 0)))
            (nextInstruction instr),
         [.allocObjectInitialized (readXRegister st 0)]))
    ∧ (instr.form = .BLR →
       readXRegister st instr.rn ≠ qp.pAllocObjectInitialized →
       (readXRegister st instr.rn = qp.pAllocArrayResolved8 ∨
        readXRegister st instr.rn = qp.pAllocArrayResolved16 ∨
        readXRegister st instr.rn = qp.pAllocArrayResolved32 ∨
        readXRegister st instr.rn = qp.pAllocArrayResolved64) →
      visitUnconditionalBranchToRegister qp allocObjectInitializedNative
          allocArrayResolvedNative defaultVisit st instr =
        (writePc (writeXRegister st 0 (allocArrayResolvedNative (readXRegister st instr.rn)
            (readXRegister st 0) (readWRegister st 1))) (nextInstruction instr),
         [.allocArrayResolved (readXRegister st instr.rn) (readXRegister st 0)
           (readWRegister st 1)])) := by
  obtain ⟨form, rn, addr⟩ := instr
  refine ⟨?_, ?_, ?_⟩
  · intro hf ht
    subst hf
    simp only [visitUnconditionalBranchToRegister] at *
    rw [if_pos ht]
  · intro hf ht
    subst hf
    simp only [visitUnconditionalBranchToRegister] at *
    rw [if_pos ht]
  · intro hf hne harr
    subst hf
    simp only [visitUnconditionalBranchToRegister] at *
    rw [if_neg hne, if_pos harr]

/-- The interception table used by concrete witnesses: six distinct
addresses. -/
def qpW : QuickEntryPoints := ⟨100, 200, 300, 400, 500, 600⟩

/-- A state whose x16 holds the test-suspend entry address and whose
link register holds 7777, for the C3 witness. -/
def stBr : SimState := writeXRegister (writeXRegister st0 16 100) 30 7777

/-- Witness for C3: a BR through x16 to the test-suspend entry point
invokes exactly the suspend service and returns to the link register. -/
theorem C3_witness :
    visitUnconditionalBranchToRegister qpW (fun c => c + 1) (fun t c n => t + c + n)
      (fun s _ => s) stBr ⟨.BR, 16, 5000⟩ =
    (writePc stBr (get_lr stBr), [.testSuspend]) :=
  (C3_interception_exact qpW (fun c => c + 1) (fun t c n => t + c + n)
    (fun s _ => s) stBr ⟨.BR, 16, 5000⟩).1 rfl (by decide)

/-- C4: for a BR whose target is not the test-suspend entry, for a BLR
whose target matches none of the five allocation entries, and for every
other instruction form, the interceptor's result is exactly the default
simulator's result on the same state and instruction, with no native
call and no error path. -/
theorem C4_unmatched_target_defers_to_default (qp : QuickEntryPoints)
    (allocObjectInitializedNative : Nat → Nat)
    (allocArrayResolvedNative : Nat → Nat → Nat → Nat)
    (defaultVisit : SimState → BrInstr → SimState)
    (st : SimState) (instr : BrInstr) :
    (instr.form = .otherForm →
      visitUnconditionalBranchToRegister qp allocObjectInitializedNative
          allocArrayResolvedNative defaultVisit st instr = (defaultVisit st instr, []))
    ∧ (instr.form = .BR → readXRegister st instr.rn ≠ qp.pTestSuspend →
      visitUnconditionalBranchToRegister qp allocObjectInitializedNative
          allocArrayResolvedNative defaultVisit st instr = (defaultVisit st instr, []))
    ∧ (instr.form = .BLR →
       readXRegister st instr.rn ≠ qp.pAllocObjectInitialized →
       readXRegister st instr.rn ≠ qp.pAllocArrayResolved8 →
       readXRegister st instr.rn ≠ qp.pAllocArrayResolved16 →
       readXRegister st instr.rn ≠ qp.pAllocArrayResolved32 →
       readXRegister st instr.rn ≠ qp.pAllocArrayResolved64 →
      visitUnconditionalBranchToRegister qp allocObjectInitializedNative
          allocArrayResolvedNative defaultVisit st instr = (defaultVisit st instr, [])) := by
  obtain ⟨form, rn, addr⟩ := instr
  refine ⟨?_, ?_, ?_⟩
  · intro hf
    subst hf
    simp only [visitUnconditionalBranchToRegister]
  · intro hf ht
    subst hf
    simp only [visitUnconditionalBranchToRegister] at *
    rw [if_neg ht]
  · intro hf h1 h2 h3 h4 h5
    subst hf
    simp only [visitUnconditionalBranchToRegister] at *
    rw [if_neg h1, if_neg ?_]
    intro hor
    rcases hor with h | h | h | h
    · exact h2 h
    · exact h3 h
    · exact h4 h
    · exact h5 h

/-- A state whose x17 holds address 999, absent from the interception
table, for the C4 witness. -/
def stBlr : SimState := writeXRegister st0 17 999

/-- Witness for C4: a BLR through x17 to an unregistered address 999 is
handled bit-identically to the supplied default simulator behaviour,
with no native call. -/
theorem C4_witness :
    visitUnconditionalBranchToRegister qpW (fun c => c + 1) (fun t c n => t + c + n)
      (fun s _ => writePc s 4242) stBlr ⟨.BLR, 17, 5000⟩ =
    (writePc stBlr 4242, []) :=
  (C4_unmatched_target_defers_to_default qpW (fun c => c + 1) (fun t c n => t + c + n)
    (fun s _ => writePc s 4242) stBlr ⟨.BLR, 17, 5000⟩).2.2 rfl
    (by decide) (by decide) (by decide) (by decide) (by decide)

/-- The saved stack pointer recorded by argument packing is exactly the
stack pointer of the entry state: the register writes preceding the
save do not touch SP. -/
theorem initRegisters_savedSp_eq (method self result shortyPtr : Nat)
    (shorty : List Char) (args : List Nat) (argsSizeInBytes : Nat)
    (isStatic : Bool) (gcMarking : Nat) (useReadBarrier : Bool)
    (st : SimState) (po : PackOut)
    (h : initRegistersForInvokeStub method self result shortyPtr shorty args
        argsSizeInBytes isStatic gcMarking useReadBarrier st = some po) :
    po.savedSp = st.sp := by
  rw [initRegistersForInvokeStub, Option.map_eq_some'] at h
  obtain ⟨st8, hfill, hpo⟩ := h
  subst hpo
  rfl

/-- C5: whenever Invoke returns, the final simulated state is the clean
reset baseline with the stack pointer restored to the exact value it
had on entry — no residual register, flag or stack-depth state leaks
into the next invocation, whatever the simulated run did. -/
theorem C5_reset_and_sp_restored (runFrom : Nat → SimState → SimState)
    (method self resultPtr shortyPtr : Nat) (shorty : List Char)
    (args : List Nat) (argsSizeInBytes : Nat) (isStatic : Bool)
    (oatQuickCode : Option Nat) (gcMarking : Nat) (useReadBarrier : Bool)
    (st : SimState) (result : JValue) (stf : SimState) (rf : JValue)
    (h : invoke runFrom method self resultPtr shortyPtr shorty args argsSizeInBytes
        isStatic oatQuickCode gcMarking useReadBarrier st result = some (stf, rf)) :
    stf = writeSp resetStateBaseline st.sp := by
  unfold invoke at h
  cases hfill : initRegistersForInvokeStub method self resultPtr shortyPtr shorty args
      argsSizeInBytes isStatic gcMarking useReadBarrier st with
  | none =>
    rw [hfill] at h
    exact absurd h (by simp)
  | some po =>
    rw [hfill] at h
    have hsp := initRegisters_savedSp_eq method self resultPtr shortyPtr shorty args
      argsSizeInBytes isStatic gcMarking useReadBarrier st po hfill
    injection h with h2
    injection h2 with h3 h4
    subst h3
    rw [hsp]

/-- Witness for C5: a concrete invocation (void static method, identity
simulator run) ends in the reset baseline with SP restored to 4096. -/
theorem C5_witness :
    writeSp resetStateBaseline 4096 = writeSp resetStateBaseline stA.sp :=
  C5_reset_and_sp_restored (fun _ s => s) 11 22 33 44 ['V'] [] 0 true (some 500) 0 false
    stA ⟨0⟩ (writeSp resetStateBaseline 4096) ⟨0⟩ rfl

/-- C6 counterexample: the claim says Invoke fails fatally when the
method-metadata collaborator reports no compiled code; at a concrete
no-code input (void static method), the embedded Invoke proceeds and
returns a result instead of failing. -/
theorem C6_counterexample_invoke_proceeds_without_code :
    (invoke (fun _ s => s) 11 22 33 44 ['V'] [] 0 true none 0 false stA ⟨0⟩).isSome = true := rfl

/-- C6, amended: when no compiled code is available,
GetQuickCodeFromArtMethod returns null, and Invoke — far from failing
fatally — proceeds normally, starting the simulated run at address 0
(the reinterpret_cast of the null code pointer). -/
theorem C6_no_code_runs_from_address_zero (runFrom : Nat → SimState → SimState)
    (method self resultPtr shortyPtr : Nat) (shorty : List Char)
    (args : List Nat) (argsSizeInBytes : Nat) (isStatic : Bool)
    (gcMarking : Nat) (useReadBarrier : Bool) (st : SimState) (result : JValue)
    (po : PackOut)
    (h : initRegistersForInvokeStub method self resultPtr shortyPtr shorty args
        argsSizeInBytes isStatic gcMarking useReadBarrier st = some po) :
    getQuickCodeFromArtMethod none = none ∧
    invoke runFrom method self resultPtr shortyPtr shorty args argsSizeInBytes
        isStatic none gcMarking useReadBarrier st result =
      some (writeSp resetStateBaseline po.savedSp,
            getResultFromShorty (runFrom 0 po.st) shorty result) := by
  refine ⟨rfl, ?_⟩
  unfold invoke
  rw [h]
  rfl

/-- The concrete pack output of a void static invocation from stA, for
the C6 witness. -/
def poW : PackOut :=
  (initRegistersForInvokeStub 11 22 33 44 ['V'] [] 0 true 0 false stA).getD
    ⟨st0, 0, 0, 0, 0, 0, 0, []⟩

/-- Witness for C6 (amended): the concrete no-code invocation returns
the reset state and the result of a run started at address 0. -/
theorem C6_witness :
    getQuickCodeFromArtMethod none = none ∧
    invoke (fun _ s => s) 11 22 33 44 ['V'] [] 0 true none 0 false stA ⟨0⟩ =
      some (writeSp resetStateBaseline poW.savedSp,
            getResultFromShorty ((fun _ s => s) 0 poW.st) ['V'] ⟨0⟩) :=
  C6_no_code_runs_from_address_zero (fun _ s => s) 11 22 33 44 ['V'] [] 0 true 0 false
    stA ⟨0⟩ poW rfl

end ArtArm64Sim
